import Mathlib

/-!
Verification of `radioknop_tui.py` — a curses TUI for browsing radio genres
and stations and streaming one station at a time through an external `mpv`
subprocess.

Shallow embedding conventions:
* The player subprocess handle (`self.player_process`) is an `Option Nat`
  (a pid); alongside it we track `live`, the list of pids of mpv processes
  currently alive in the OS, so that "exactly one active process" is a
  statement about the OS, not just about the handle.
* `subprocess.Popen` can succeed, raise `FileNotFoundError`, or raise some
  other `OSError` (e.g. `PermissionError`); the outcome is an input
  (`LaunchResult`) to the embedded `play_stream`.  The Python `try` block in
  `play_stream` catches only `FileNotFoundError`, so the third case
  propagates as an exception, modelled by `Except`.
* JSON values are the inductive `Json`; `json.dump` followed by `json.load`
  is the identity on decoded structures, so the cache file stores a `Json`
  directly.  Wall-clock times (`time.time()`, `os.path.getmtime`) are `Nat`
  seconds.
* Locale selection is out of scope (per the spec); the English translation
  table is used for message strings.
-/

namespace Radioknop

/-- JSON values, the decoded form produced by `json.load`/`json.loads`. -/
inductive Json where
  | null : Json
  | bool (b : Bool) : Json
  | num (n : Int) : Json
  | str (s : String) : Json
  | arr (elems : List Json) : Json
  | obj (fields : List (String × Json)) : Json
deriving Repr

/-- Constant `CACHE_DURATION = 24 * 60 * 60` (line 67). -/
def CACHE_DURATION : Nat := 24 * 60 * 60

/-- English message strings from `TRANSLATIONS['en']` (lines 16-38),
with Python `str.format` substitution applied. -/
def T_mpv_not_found : String :=
  "Error: 'mpv' is not installed. Please install mpv first."

def T_network_error (e : String) : String := "Network error: " ++ e

def T_parse_error : String := "Failed to parse API response."

def T_generic_error (e : String) : String := "An error occurred: " ++ e

def T_stream_error (station_name : String) : String :=
  "Error: Could not find stream URL for '" ++ station_name ++ "'."

/-- State owned by `RadioApp` that the player methods touch:
`self.player_process` and `self.current_station_name` (lines 93-94), plus
`live`, the pids of mpv processes currently alive in the OS (not a Python
field; it makes process-counting claims expressible). -/
structure PlayerState where
  player_process : Option Nat
  current_station_name : Option String
  live : List Nat
deriving Repr, DecidableEq

/-- Method `RadioApp.stop_player` (lines 157-164): if a handle is present, terminate
the process (wait up to 1 s, then kill — either way it is dead afterwards)
and drop the handle.  `current_station_name` is not touched. -/
def stop_player (s : PlayerState) : PlayerState :=
  match s.player_process with
  | some p => { s with player_process := none, live := s.live.erase p }
  | none => s

/-- Outcome of the `subprocess.Popen(["mpv", "--no-video", url], ...)` call
in `play_stream` (lines 147-151): success with a fresh pid, the
`FileNotFoundError` the code catches, or another OS-level launch failure
(e.g. `PermissionError`) that no `except` clause matches. -/
inductive LaunchResult where
  | ok (pid : Nat)
  | fileNotFound
  | otherOSError
deriving Repr, DecidableEq

/-- Method `RadioApp.play_stream` (lines 144-156): unconditionally `stop_player`,
then launch mpv.  On success record the handle and the station name; on
`FileNotFoundError` set both to `None`; any other exception from `Popen`
escapes the method (the `try` catches only `FileNotFoundError`). -/
def play_stream (launch : LaunchResult) (_url : String) (station_name : String)
    (s : PlayerState) : Except String PlayerState :=
  let s1 := stop_player s
  match launch with
  | .ok pid => .ok { s1 with player_process := some pid,
                             current_station_name := some station_name,
                             live := s1.live ++ [pid] }
  | .fileNotFound => .ok { s1 with player_process := none,
                                   current_station_name := none }
  | .otherOSError => .error "OSError"

/-- Result of reading the cache file in `fetch_data` (lines 112-119):
either the file opened and parsed to a `Json`, or the read/parse raised
`IOError`/`json.JSONDecodeError`. -/
inductive CacheContent where
  | parsed (j : Json)
  | unreadable
deriving Repr

/-- Cache file on disk: modification time (seconds) and what reading it
yields. -/
structure CacheState where
  mtime : Nat
  content : CacheContent
deriving Repr

/-- Outcome of the HTTP fetch in `fetch_data` (lines 121-142): a decoded
body, a `urllib.error.URLError`, a `json.JSONDecodeError`, or some other
exception. -/
inductive NetResult where
  | ok (j : Json)
  | urlError (reason : String)
  | parseError
  | genericError (msg : String)
deriving Repr

/-- The external world `fetch_data` observes: the cache file (if it exists),
the current time, and what the network would return. -/
structure FetchWorld where
  cache : Option CacheState
  now : Nat
  net : NetResult

/-- The network branch of `fetch_data` (lines 121-142).  Returns the data
and the flag `true` meaning a network request was issued.  The best-effort
cache write (lines 130-134) does not affect the returned value. -/
def net_fetch (w : FetchWorld) : Json × Bool :=
  match w.net with
  | .ok j => (j, true)
  | .urlError r => (.obj [("error", .str (T_network_error r))], true)
  | .parseError => (.obj [("error", .str T_parse_error)], true)
  | .genericError m => (.obj [("error", .str (T_generic_error m))], true)

/-- Method `RadioApp.fetch_data` (lines 111-142).  If the cache file exists and its
age `now - mtime` is below `CACHE_DURATION`, return its parsed contents; a
read/parse failure inside the `try` falls through to the network, as does a
stale or absent file.  The second component records whether a network
request occurred. -/
def fetch_data (w : FetchWorld) : Json × Bool :=
  match w.cache with
  | some c =>
      if w.now - c.mtime < CACHE_DURATION then
        match c.content with
        | .parsed j => (j, false)
        | .unreadable => net_fetch w
      else net_fetch w
  | none => net_fetch w

/-- Per-screen view state: `current_row` and `scroll_offset` local variables
of `run` (lines 340-341) and `run_station_menu` (lines 261-262). -/
structure ViewState where
  current_row : Nat
  scroll_offset : Nat
deriving Repr, DecidableEq

/-- The `KEY_UP` handling, identical on the station screen (lines 289-293) and
the genre screen (lines 352-356): move the selection up if possible and pull
the scroll offset up just enough to keep it visible. -/
def nav_up (v : ViewState) : ViewState :=
  if 0 < v.current_row then
    let r := v.current_row - 1
    ⟨r, if r < v.scroll_offset then r else v.scroll_offset⟩
  else v

/-- The `KEY_DOWN` handling, identical on the station screen (lines 294-298) and
the genre screen (lines 357-361): move the selection down if below the last
index `n - 1`, bumping the scroll offset by one when the selection would
leave the `max_items` visible rows. -/
def nav_down (n max_items : Nat) (v : ViewState) : ViewState :=
  if v.current_row < n - 1 then
    let r := v.current_row + 1
    ⟨r, if v.scroll_offset + max_items ≤ r then v.scroll_offset + 1
        else v.scroll_offset⟩
  else v

/-- An Up or Down key press. -/
inductive NavKey where
  | up
  | down
deriving Repr, DecidableEq

/-- One Up/Down key press on a list of length `n` with `max_items` visible
rows. -/
def nav_step (n max_items : Nat) (v : ViewState) : NavKey → ViewState
  | .up => nav_up v
  | .down => nav_down n max_items v

/-- A sequence of Up/Down key presses applied in order. -/
def nav_run (n max_items : Nat) (keys : List NavKey) (v : ViewState) :
    ViewState :=
  keys.foldl (nav_step n max_items) v

/-- A station entry: a Python dict with optional `name` and `url` keys
(the `isinstance(s, dict)` guard on line 264 restricts attention to dict
entries; non-dict entries never reach the claims below). -/
structure Station where
  name : Option String
  url : Option String
deriving Repr, DecidableEq

/-- Expression `s.get('name', 'Unknown')` (line 263). -/
def display_name (s : Station) : String := s.name.getD "Unknown"

/-- List `station_names = [s.get('name', 'Unknown') for s in stations ...]`
(lines 263-264). -/
def station_names (stations : List Station) : List String :=
  stations.map display_name

/-- Python truthiness of `selected_station.get('url')` (line 314): a missing
key gives `None` (falsy) and an empty string is falsy. -/
def truthy_url : Option String → Bool
  | some u => u ≠ ""
  | none => false

/-- What the Enter branch of `run_station_menu` (lines 305-321) did:
toggled the playing station off, started playback of a URL, or displayed
the stream-error notice via `show_error`. -/
inductive EnterOutcome where
  | toggledOff
  | played (url : String)
  | streamError (msg : String)
deriving Repr, DecidableEq

/-- Loop control after one key of `run_station_menu`: keep looping (stay on
the station screen), `break` (back to the genre screen, line 301), or
`return 'quit'` (line 304). -/
inductive MenuSignal where
  | stay
  | back
  | quit
deriving Repr, DecidableEq

/-- The Enter branch of `run_station_menu` (lines 305-321).
`selected_name = station_names[current_row]`; if it names the current
station and a process handle is live, stop (and re-record the name, line
310); otherwise look up the FIRST station whose `name` field equals
`selected_name` (line 312's `next(...)`) and play its URL if truthy, else
show the stream-error notice.  `play_stream` may raise, hence `Except`.
(`selected_station and ...` on line 314: a dict found by the name match is
non-empty, hence truthy, so only `None` is falsy there.) -/
def enter_station (stations : List Station) (launch : LaunchResult)
    (ps : PlayerState) (row : Nat) : Except String (PlayerState × EnterOutcome) :=
  let names := station_names stations
  let selected_name := names.getD row ""
  if ps.current_station_name = some selected_name ∧ ps.player_process.isSome then
    let ps1 := stop_player ps
    .ok ({ ps1 with current_station_name := some selected_name }, .toggledOff)
  else
    match stations.find? (fun s => s.name == some selected_name) with
    | some st =>
        match st.url with
        | some u =>
            if u ≠ "" then
              (play_stream launch u selected_name ps).map
                (fun ps' => (ps', .played u))
            else .ok (ps, .streamError (T_stream_error selected_name))
        | none => .ok (ps, .streamError (T_stream_error selected_name))
    | none => .ok (ps, .streamError (T_stream_error selected_name))

/-- One keypress of the `run_station_menu` loop (lines 272-321), for the
keys the claims mention.  The Enter branch never breaks out of the loop, so
its signal is `stay`.  (The `key == -1` liveness tick of the 100 ms poll is
not involved in any claim and is omitted.) -/
inductive SKey where
  | up
  | down
  | b
  | q
  | enter
deriving Repr, DecidableEq

/-- Result of one `run_station_menu` loop iteration. -/
structure StepResult where
  ps : PlayerState
  view : ViewState
  signal : MenuSignal
  effect : Option EnterOutcome
deriving Repr, DecidableEq

/-- One iteration of the `run_station_menu` key dispatch (lines 289-321). -/
def station_menu_step (stations : List Station) (max_items : Nat)
    (launch : LaunchResult) (ps : PlayerState) (v : ViewState) :
    SKey → Except String StepResult
  | .up => .ok ⟨ps, nav_up v, .stay, none⟩
  | .down => .ok ⟨ps, nav_down (station_names stations).length max_items v,
                  .stay, none⟩
  | .b => .ok ⟨stop_player ps, v, .back, none⟩
  | .q => .ok ⟨stop_player ps, v, .quit, none⟩
  | .enter => (enter_station stations launch ps v.current_row).map
      (fun r => ⟨r.1, v, .stay, some r.2⟩)

/-- First-match lookup of a key in a decoded JSON dict: `"error" in data`
followed by `data['error']` (lines 334-335); `json.load` produces unique
keys, so first-match agrees with Python dict lookup.  Non-dict data never
carries an `"error"` key in this model (the claims concern dict results). -/
def json_get (k : String) : Json → Option Json
  | .obj fields => fields.lookup k
  | _ => none

/-- Method `RadioApp.check_dependencies` (lines 105-109): `shutil.which("mpv")`
succeeding is the boolean input. -/
def check_dependencies (mpv_on_path : Bool) : Bool := mpv_on_path

/-- Observable trace of the startup portion of `RadioApp.run`
(lines 325-339, up to the first genre-menu draw). -/
structure RunTrace where
  errorShown : Option Json
  fetchAttempted : Bool
  networkCalled : Bool
  genreMenuShown : Bool
deriving Repr

/-- Startup of `RadioApp.run` (lines 325-347): dependency check first —
failure shows the mpv error and returns before any `fetch_data` call — then
fetch, then the `"error" in data` check (lines 334-336) which shows
`data['error']` and returns before the genre list is ever drawn. -/
def run_startup (mpv_on_path : Bool) (w : FetchWorld) : RunTrace :=
  if check_dependencies mpv_on_path then
    let r := fetch_data w
    match json_get "error" r.1 with
    | some v => ⟨some v, true, r.2, false⟩
    | none => ⟨none, true, r.2, true⟩
  else ⟨some (.str T_mpv_not_found), false, false, false⟩

/-! ## Helper lemmas -/

/-- The network branch always records that a network request was issued. -/
theorem net_fetch_networkCalled (w : FetchWorld) : (net_fetch w).2 = true := by
  rcases w with ⟨c, now, net⟩
  cases net <;> rfl

/-! ## C1 — stop() and the active-station record -/

/-- C1, counterexample: the claim says `stop` leaves "no recorded station
name", but stopping a controller that is playing "X" (handle pid 3) clears
the handle while `current_station_name` remains `some "X"`: `stop_player`
(lines 157-164) never touches the station-name field. -/
theorem stop_player_keeps_name_cex :
    (stop_player ⟨some 3, some "X", [3]⟩).player_process = none ∧
    (stop_player ⟨some 3, some "X", [3]⟩).current_station_name ≠ none := by
  exact ⟨rfl, by decide⟩

/-- C1, amended: after `stop_player` the controller holds no subprocess
handle and the process, if one was running, is no longer alive; the
recorded station name is left unchanged (it is retained so the status bar
can show "Stopped: ..."), not cleared. -/
theorem stop_player_state (s : PlayerState) :
    (stop_player s).player_process = none ∧
    (stop_player s).current_station_name = s.current_station_name ∧
    (∀ p, s.player_process = some p → (stop_player s).live = s.live.erase p) := by
  rcases s with ⟨proc, name, live⟩
  cases proc with
  | none =>
      refine ⟨?_, rfl, ?_⟩ <;> simp [stop_player]
  | some p =>
      refine ⟨rfl, rfl, ?_⟩
      intro q hq
      simp [stop_player] at hq ⊢
      rw [hq]

/-- C1 witness: stopping a controller playing "B" as pid 5 clears the
handle, kills the process, and keeps the station name. -/
theorem stop_player_state_witness :
    (stop_player ⟨some 5, some "B", [5]⟩).player_process = none ∧
    (stop_player ⟨some 5, some "B", [5]⟩).current_station_name = some "B" ∧
    (stop_player ⟨some 5, some "B", [5]⟩).live = [] := by
  refine ⟨(stop_player_state ⟨some 5, some "B", [5]⟩).1,
          (stop_player_state ⟨some 5, some "B", [5]⟩).2.1, ?_⟩
  have h := (stop_player_state ⟨some 5, some "B", [5]⟩).2.2 5 rfl
  simpa using h

/-! ## C4 — launch failures in play_stream -/

/-- C4, counterexample: the claim says any OS-level launch failure is
silently absorbed, but the `try` in `play_stream` (lines 146-155) catches
only `FileNotFoundError`; another `OSError` (e.g. `PermissionError`)
propagates out of the method as an exception. -/
theorem play_stream_oserror_cex :
    play_stream .otherOSError "http://a" "X" ⟨none, none, []⟩ =
      .error "OSError" := rfl

/-- C4, amended: only the missing-binary failure (`FileNotFoundError`) is
silently absorbed — `play_stream` then reverts to idle with no handle and
no station recorded — while any other OS-level launch failure propagates
as an exception out of `play_stream`. -/
theorem play_stream_failure_modes :
    (∀ (u nm : String) (s : PlayerState),
        play_stream .fileNotFound u nm s =
          .ok ⟨none, none, (stop_player s).live⟩) ∧
    (∀ (u nm : String) (s : PlayerState),
        play_stream .otherOSError u nm s = .error "OSError") := by
  constructor
  · intro u nm s
    rfl
  · intro u nm s
    rfl

/-! ## C5 — cache freshness round-trip -/

/-- C5: a catalog written to the cache file and read back while the file is
younger than 24 hours is returned identically with no network request; a
cache file at least 24 hours old causes a network request regardless of its
contents or presence. -/
theorem fetch_data_cache_roundtrip :
    (∀ (j : Json) (mtime now : Nat) (net : NetResult),
        now - mtime < CACHE_DURATION →
        fetch_data ⟨some ⟨mtime, .parsed j⟩, now, net⟩ = (j, false)) ∧
    (∀ (c : CacheState) (now : Nat) (net : NetResult),
        CACHE_DURATION ≤ now - c.mtime →
        (fetch_data ⟨some c, now, net⟩).2 = true) := by
  constructor
  · intro j mtime now net h
    simp [fetch_data, h]
  · intro c now net h
    have hlt : ¬ (now - c.mtime < CACHE_DURATION) := not_lt.mpr h
    simp only [fetch_data, if_neg hlt]
    exact net_fetch_networkCalled ⟨some c, now, net⟩

/-- C5 witness: a concrete catalog `{"Rock": []}` cached at time 0 is
returned unchanged without network access at time 100, and at time 200000
(past the 24-hour window) the fetch goes to the network. -/
theorem fetch_data_cache_roundtrip_witness :
    (100 - 0 < CACHE_DURATION) ∧
    fetch_data ⟨some ⟨0, .parsed (.obj [("Rock", .arr [])])⟩, 100, .parseError⟩ =
      (.obj [("Rock", .arr [])], false) ∧
    (CACHE_DURATION ≤ 200000 - 0) ∧
    (fetch_data ⟨some ⟨0, .parsed (.obj [("Rock", .arr [])])⟩, 200000,
        .parseError⟩).2 = true := by
  refine ⟨by decide, ?_, by decide, ?_⟩
  · exact fetch_data_cache_roundtrip.1 _ 0 100 .parseError (by decide)
  · exact fetch_data_cache_roundtrip.2 ⟨0, .parsed (.obj [("Rock", .arr [])])⟩
      200000 .parseError (by decide)

/-! ## C8 — missing dependency at startup -/

/-- C8: when `mpv` is not resolvable on the search path, `run` shows the
missing-dependency error and returns before `fetch_data` is ever called:
no cache read, no network request, and no genre menu. -/
theorem run_missing_dependency (w : FetchWorld) :
    run_startup false w = ⟨some (.str T_mpv_not_found), false, false, false⟩ :=
  rfl

/-! ## C9 — a fetched catalog with an "error" key -/

/-- C9: whenever the fetched top-level JSON object contains the key
`"error"`, `run` treats it exactly like a fetch failure: the associated
value is shown as the error message and the application exits without
drawing the genre list (lines 333-336). -/
theorem run_error_key (w : FetchWorld) (fields : List (String × Json))
    (v : Json) (b : Bool)
    (hf : fetch_data w = (Json.obj fields, b))
    (hl : fields.lookup "error" = some v) :
    run_startup true w = ⟨some v, true, b, false⟩ := by
  simp [run_startup, check_dependencies, hf, json_get, hl]

/-- C9 witness: a fresh cache holding `{"error": "boom"}` makes startup show
`"boom"` and stop before the genre menu. -/
theorem run_error_key_witness :
    fetch_data ⟨some ⟨0, .parsed (.obj [("error", .str "boom")])⟩, 0,
        .parseError⟩ = (Json.obj [("error", .str "boom")], false) ∧
    ([("error", Json.str "boom")].lookup "error" = some (.str "boom")) ∧
    run_startup true ⟨some ⟨0, .parsed (.obj [("error", .str "boom")])⟩, 0,
        .parseError⟩ = ⟨some (.str "boom"), true, false, false⟩ := by
  refine ⟨rfl, rfl, ?_⟩
  exact run_error_key _ [("error", Json.str "boom")] (.str "boom") false rfl rfl

/-! ## C2 — view-state invariant under Up/Down -/

/-- The view-state invariant claimed by the spec: the selection stays in
range and the scroll window contains the selection. -/
def nav_inv (n max_items : Nat) (v : ViewState) : Prop :=
  v.current_row < n ∧ v.scroll_offset ≤ v.current_row ∧
  v.current_row < v.scroll_offset + max_items

/-- Strengthened invariant used in the induction: additionally the scroll
offset never exceeds `n - max_items` (the scrollbar's `scroll_range`). -/
def nav_inv_full (n max_items : Nat) (v : ViewState) : Prop :=
  nav_inv n max_items v ∧ v.scroll_offset ≤ n - max_items

theorem nav_up_inv_full (n max_items : Nat) (hm : 1 ≤ max_items)
    {v : ViewState} (h : nav_inv_full n max_items v) :
    nav_inv_full n max_items (nav_up v) := by
  obtain ⟨⟨h1, h2, h3⟩, h4⟩ := h
  unfold nav_inv_full nav_inv nav_up
  split
  · dsimp only
    split <;> omega
  · exact ⟨⟨h1, h2, h3⟩, h4⟩

theorem nav_down_inv_full (n max_items : Nat) (hm : 1 ≤ max_items)
    {v : ViewState} (h : nav_inv_full n max_items v) :
    nav_inv_full n max_items (nav_down n max_items v) := by
  obtain ⟨⟨h1, h2, h3⟩, h4⟩ := h
  unfold nav_inv_full nav_inv nav_down
  split
  · dsimp only
    split <;> omega
  · exact ⟨⟨h1, h2, h3⟩, h4⟩

theorem nav_step_inv_full (n max_items : Nat) (hm : 1 ≤ max_items)
    {v : ViewState} (k : NavKey) (h : nav_inv_full n max_items v) :
    nav_inv_full n max_items (nav_step n max_items v k) := by
  cases k with
  | up => exact nav_up_inv_full n max_items hm h
  | down => exact nav_down_inv_full n max_items hm h

theorem nav_run_inv_full (n max_items : Nat) (hm : 1 ≤ max_items)
    (keys : List NavKey) {v : ViewState} (h : nav_inv_full n max_items v) :
    nav_inv_full n max_items (nav_run n max_items keys v) := by
  induction keys generalizing v with
  | nil => exact h
  | cons k ks ih => exact ih (nav_step_inv_full n max_items hm k h)

theorem nav_inv_full_init (n max_items : Nat) (hn : 1 ≤ n)
    (hm : 1 ≤ max_items) : nav_inv_full n max_items ⟨0, 0⟩ := by
  unfold nav_inv_full nav_inv
  dsimp only
  omega

/-- C2: for every list of length `n ≥ 1`, every visible-row count
`max_items ≥ 1` and every sequence of Up/Down presses starting from
`(selectedIndex, scrollOffset) = (0, 0)`, the view state satisfies
`selectedIndex < n` and
`scrollOffset ≤ selectedIndex < scrollOffset + max_items`
(`0 ≤ selectedIndex` holds because the indices are naturals).  `nav_step`
embeds the Up/Down handlers, which are textually identical on the station
screen (lines 289-298) and the genre screen (lines 352-361). -/
theorem nav_invariant_holds (n max_items : Nat) (keys : List NavKey)
    (hn : 1 ≤ n) (hm : 1 ≤ max_items) :
    nav_inv n max_items (nav_run n max_items keys ⟨0, 0⟩) :=
  (nav_run_inv_full n max_items hm keys (nav_inv_full_init n max_items hn hm)).1

/-- C2 witness: five presses on a 3-item list with 2 visible rows. -/
theorem nav_invariant_holds_witness :
    (1 ≤ 3) ∧ (1 ≤ 2) ∧
    nav_inv 3 2 (nav_run 3 2 [.down, .down, .down, .up, .down] ⟨0, 0⟩) :=
  ⟨by decide, by decide,
   nav_invariant_holds 3 2 [.down, .down, .down, .up, .down]
     (by decide) (by decide)⟩

/-! ## C3 — Enter toggle law -/

/-- C3, counterexample: the claim says Enter on a different station with a
URL, while one is playing, always leaves exactly one active process with
the previous one stopped.  But Enter resolves the station by displayed
name, FIRST match (line 312): with
`[{"name":"X","url":"http://x"}, {"name":"Y"}, {"name":"Y","url":"http://b"}]`
and "X" playing as pid 3, Enter on row 2 — a different station that has a
URL — finds the url-less first "Y", shows the stream-error notice,
and never calls `stop_player`: pid 3 is still the live process and no
playback of the selected station starts. -/
theorem enter_switch_no_stop_cex :
    enter_station [⟨some "X", some "http://x"⟩, ⟨some "Y", none⟩,
        ⟨some "Y", some "http://b"⟩] (.ok 9) ⟨some 3, some "X", [3]⟩ 2 =
      .ok (⟨some 3, some "X", [3]⟩, .streamError (T_stream_error "Y")) := rfl

/-- C3, amended: (a) Enter on the row whose label names the
currently-playing station stops it: the state returns to idle (no handle,
no live process) and no new process is started (outcome `toggledOff`);
(b) Enter on a row with a different label, while one process is playing,
results in exactly one live process afterwards — the new pid, the old one
having been stopped — provided the FIRST station whose `name` equals that
label carries a non-empty URL (this is how line 312 resolves the selected
station) and the mpv launch succeeds. -/
theorem enter_toggle_law :
    (∀ (stations : List Station) (launch : LaunchResult) (ps : PlayerState)
        (row p : Nat),
        row < (station_names stations).length →
        ps.current_station_name = some ((station_names stations).getD row "") →
        ps.player_process = some p →
        ps.live = [p] →
        enter_station stations launch ps row =
          .ok (⟨none, some ((station_names stations).getD row ""), []⟩,
               .toggledOff)) ∧
    (∀ (stations : List Station) (ps : PlayerState) (row p pid : Nat)
        (st : Station) (u : String),
        row < (station_names stations).length →
        ps.player_process = some p →
        ps.live = [p] →
        ¬ ps.current_station_name = some ((station_names stations).getD row "") →
        stations.find?
            (fun s => s.name == some ((station_names stations).getD row "")) =
          some st →
        st.url = some u →
        u ≠ "" →
        enter_station stations (.ok pid) ps row =
          .ok (⟨some pid, some ((station_names stations).getD row ""), [pid]⟩,
               .played u)) := by
  constructor
  · intro stations launch ps row p _hrow hname hproc hlive
    rcases ps with ⟨proc, name, live⟩
    simp only at hname hproc hlive
    subst hname hproc hlive
    unfold enter_station
    rw [if_pos ⟨rfl, rfl⟩]
    simp [stop_player]
  · intro stations ps row p pid st u _hrow hproc hlive hdiff hfind hurl hne
    rcases ps with ⟨proc, name, live⟩
    simp only at hproc hlive hdiff
    subst hproc hlive
    unfold enter_station
    rw [if_neg (by intro hc; exact hdiff hc.1)]
    rw [hfind]
    simp only
    rw [hurl]
    simp only [if_pos hne]
    unfold play_stream stop_player
    simp [Except.map]

/-- C3 witness: with stations A (url `http://a`) and B (url `http://b`):
toggling A off while A (pid 3) plays, and switching to B (new pid 9) while
A (pid 3) plays. -/
theorem enter_toggle_law_witness :
    enter_station [⟨some "A", some "http://a"⟩, ⟨some "B", some "http://b"⟩]
        .fileNotFound ⟨some 3, some "A", [3]⟩ 0 =
      .ok (⟨none, some "A", []⟩, .toggledOff) ∧
    enter_station [⟨some "A", some "http://a"⟩, ⟨some "B", some "http://b"⟩]
        (.ok 9) ⟨some 3, some "A", [3]⟩ 1 =
      .ok (⟨some 9, some "B", [9]⟩, .played "http://b") := by
  constructor
  · exact enter_toggle_law.1
      [⟨some "A", some "http://a"⟩, ⟨some "B", some "http://b"⟩]
      .fileNotFound ⟨some 3, some "A", [3]⟩ 0 3
      (by decide) rfl rfl rfl
  · exact enter_toggle_law.2
      [⟨some "A", some "http://a"⟩, ⟨some "B", some "http://b"⟩]
      ⟨some 3, some "A", [3]⟩ 1 3 9 ⟨some "B", some "http://b"⟩ "http://b"
      (by decide) rfl rfl (by decide) rfl rfl (by decide)

/-! ## C6 — Enter on a station without a URL -/

/-- C6, counterexample: the claim quantifies over every entry lacking a
`url`, but Enter resolves the station by its displayed name, taking the
FIRST match (line 312).  With the list
`[{"name":"Y","url":"http://a"}, {"name":"Y"}]`, Enter on row 1 — the entry
with no `url` — starts playback of the first "Y"'s URL instead of showing
the stream-error notice. -/
theorem enter_no_url_cex :
    station_menu_step [⟨some "Y", some "http://a"⟩, ⟨some "Y", none⟩] 5
        (.ok 7) ⟨none, none, []⟩ ⟨1, 0⟩ .enter =
      .ok ⟨⟨some 7, some "Y", [7]⟩, ⟨1, 0⟩, .stay, some (.played "http://a")⟩ :=
  rfl

/-- C6, amended: pressing Enter on the row of a station entry lacking a
(truthy) `url` shows the stream-error notice, launches no player process and
leaves the player state untouched, and the loop stays on the station-list
screen — provided the row's displayed name is not the name of the
currently-playing station and the first list entry whose `name` equals that
displayed name (if any) also lacks a truthy URL. -/
theorem enter_no_url_shows_error (stations : List Station) (max_items : Nat)
    (launch : LaunchResult) (ps : PlayerState) (v : ViewState) (e : Station)
    (hrow : v.current_row < (station_names stations).length)
    (hentry : stations[v.current_row]? = some e)
    (hnourl : truthy_url e.url = false)
    (hnotcur : ¬ (ps.current_station_name =
        some ((station_names stations).getD v.current_row "") ∧
        ps.player_process.isSome))
    (hfirst : ∀ st, stations.find?
          (fun s => s.name ==
            some ((station_names stations).getD v.current_row "")) =
        some st → truthy_url st.url = false) :
    station_menu_step stations max_items launch ps v .enter =
      .ok ⟨ps, v, .stay, some (.streamError
        (T_stream_error ((station_names stations).getD v.current_row "")))⟩ := by
  unfold station_menu_step enter_station
  rw [if_neg hnotcur]
  cases hf : stations.find?
      (fun s => s.name ==
        some ((station_names stations).getD v.current_row "")) with
  | none => rfl
  | some st =>
      have hst := hfirst st hf
      dsimp only
      cases hu : st.url with
      | none => rfl
      | some u =>
          have hu0 : u = "" := by
            rw [hu] at hst
            simpa [truthy_url] using hst
          subst hu0
          simp only [ne_eq, not_true_eq_false, if_false]
          rfl

/-- C6 witness: the single-entry list `[{"name":"Y"}]` (Scenario C of the
spec): Enter on "Y" shows the stream-error notice, no process launched. -/
theorem enter_no_url_shows_error_witness :
    station_menu_step [⟨some "Y", none⟩] 5 (.ok 1) ⟨none, none, []⟩ ⟨0, 0⟩
        .enter =
      .ok ⟨⟨none, none, []⟩, ⟨0, 0⟩, .stay,
           some (.streamError (T_stream_error "Y"))⟩ := by
  refine enter_no_url_shows_error [⟨some "Y", none⟩] 5 (.ok 1)
    ⟨none, none, []⟩ ⟨0, 0⟩ ⟨some "Y", none⟩ (by decide) rfl rfl
    (by simp) ?_
  intro st hst
  have h1 : ([⟨some "Y", none⟩] : List Station).find?
      (fun s => s.name == some ((station_names [⟨some "Y", none⟩]).getD 0 "")) =
      some ⟨some "Y", none⟩ := rfl
  rw [h1] at hst
  cases hst
  rfl

/-! ## C10 — Enter resolves the station by displayed name -/

/-- If `enter_station` reports that a URL was played, that URL is the `url`
of the first station whose `name` equals the selected row's displayed
label, and that station's `name` is present. -/
theorem enter_station_played (stations : List Station) (launch : LaunchResult)
    (ps : PlayerState) (row : Nat) (p : PlayerState × EnterOutcome)
    (u : String)
    (h : enter_station stations launch ps row = .ok p)
    (he : p.2 = .played u) :
    ∃ st, stations.find?
        (fun s => s.name == some ((station_names stations).getD row "")) =
        some st ∧
      st.url = some u ∧
      st.name = some ((station_names stations).getD row "") := by
  unfold enter_station at h
  dsimp only at h
  split at h
  · cases h
    simp at he
  · split at h
    · rename_i st hf
      split at h
      · rename_i u' hu
        split at h
        · rename_i hne
          refine ⟨st, hf, ?_, ?_⟩
          · have hu' : u' = u := by
              unfold play_stream at h
              cases launch with
              | ok pid =>
                  simp only [Except.map] at h
                  cases h
                  simpa using he
              | fileNotFound =>
                  simp only [Except.map] at h
                  cases h
                  simpa using he
              | otherOSError =>
                  simp only [Except.map] at h
                  cases h
            rw [hu, hu']
          · have := List.find?_some hf
            simpa using this
        · cases h
          simp at he
      · cases h
        simp at he
    · cases h
      simp at he

/-- C10: whenever one key dispatch of `run_station_menu` on Enter results in
playback of a URL `u`, that `u` is the `url` of the FIRST station whose
`name` field equals the displayed label of the selected row, and that
station's `name` field is present (equal to the label).  Hence an entry
whose `name` key is missing is never the entry played — the name lookup on
line 312 only matches entries with `name == label` — and with duplicate
labels the first duplicate's URL is played regardless of which row is
selected. -/
theorem enter_resolves_by_name (stations : List Station) (max_items : Nat)
    (launch : LaunchResult) (ps : PlayerState) (v : ViewState) (r : StepResult)
    (u : String)
    (hstep : station_menu_step stations max_items launch ps v .enter = .ok r)
    (heff : r.effect = some (.played u)) :
    ∃ st, stations.find?
        (fun s => s.name ==
          some ((station_names stations).getD v.current_row "")) = some st ∧
      st.url = some u ∧
      st.name = some ((station_names stations).getD v.current_row "") := by
  unfold station_menu_step at hstep
  cases he : enter_station stations launch ps v.current_row with
  | error e =>
      rw [he] at hstep
      simp [Except.map] at hstep
  | ok p =>
      rw [he] at hstep
      simp only [Except.map] at hstep
      cases hstep
      simp only at heff
      have hp2 : p.2 = .played u := by
        cases hq : p.2 <;> rw [hq] at heff <;> simp at heff
        · rw [heff]
      exact enter_station_played stations launch ps v.current_row p u he hp2

/-- C10 witness: two stations both labelled "Z"; Enter on row 1 plays the
first duplicate's URL `http://first`, not row 1's own `http://second`. -/
theorem enter_resolves_by_name_witness :
    ∃ st, ([⟨some "Z", some "http://first"⟩,
            ⟨some "Z", some "http://second"⟩] : List Station).find?
        (fun s => s.name ==
          some ((station_names [⟨some "Z", some "http://first"⟩,
                 ⟨some "Z", some "http://second"⟩]).getD 1 "")) = some st ∧
      st.url = some "http://first" ∧
      st.name = some ((station_names [⟨some "Z", some "http://first"⟩,
                 ⟨some "Z", some "http://second"⟩]).getD 1 "") :=
  enter_resolves_by_name
    [⟨some "Z", some "http://first"⟩, ⟨some "Z", some "http://second"⟩] 4
    (.ok 4) ⟨none, none, []⟩ ⟨1, 0⟩
    ⟨⟨some 4, some "Z", [4]⟩, ⟨1, 0⟩, .stay, some (.played "http://first")⟩
    "http://first" rfl rfl

end Radioknop
